import Mathlib

/-!
Verification development for the L1 Activity chat widget (React front end).
The JavaScript sources are embedded shallowly: pure computations become Lean
functions, the React state updates of a handler become an explicit state
transformer on a `ChatState` record, and each asynchronous backend round-trip
is passed in as an `Except` value (`.ok` = the resolved response, `.error` =
the rejection that reaches the handler's catch block).
-/

/-! ## Strings: the JS primitives the widget uses -/

/-- JS `String.prototype.toLowerCase`, restricted to ASCII (every intent
keyword in the source is ASCII). -/
def lowerStr (s : String) : String := ⟨s.data.map Char.toLower⟩

/-- Substring occurrence on character lists: `subOf pat l` is true when `pat`
occurs contiguously inside `l`. -/
def subOf (pat : List Char) : List Char → Bool
  | [] => pat.isEmpty
  | c :: t => pat.isPrefixOf (c :: t) || subOf pat t

/-- JS `String.prototype.includes`. -/
def strIncludes (s pat : String) : Bool := subOf pat.data s.data

/-- The whitespace characters removed by JS `String.prototype.trim`
(the ASCII ones; the widget's inputs are keyboard text). -/
def isJsSpace (c : Char) : Bool :=
  c == ' ' || c == '\t' || c == '\n' || c == '\r' || c == '\x0b' || c == '\x0c'

/-- JS `String.prototype.trim`. -/
def jsTrim (s : String) : String :=
  ⟨((s.data.dropWhile isJsSpace).reverse.dropWhile isJsSpace).reverse⟩

/-- JS `a || b` for a possibly-missing string `a` (undefined and the empty
string are falsy). -/
def jsOr (a : Option String) (b : String) : String :=
  match a with
  | some s => if s = "" then b else s
  | none => b

/-- JS truthiness of a possibly-missing string field. -/
def strTruthy : Option String → Bool
  | none => false
  | some s => !(s == "")

/-! ## Intent detection (ChatBot.js, `check*Intent`, lines 87-106) -/

/-- `checkCloudWatchIntent` from ChatBot.js. -/
def checkCloudWatchIntent (userInput : String) : Bool :=
  (["cloudwatch", "configure", "agent", "install", "setup", "monitor", "start",
    "deploy"] : List String).any fun keyword => strIncludes (lowerStr userInput) keyword

/-- `checkAlarmIntent` from ChatBot.js. -/
def checkAlarmIntent (userInput : String) : Bool :=
  (["alarm", "alert", "threshold", "notification", "warning", "metric"] :
    List String).any fun keyword => strIncludes (lowerStr userInput) keyword

/-- `checkInstanceTypeChangeIntent` from ChatBot.js. -/
def checkInstanceTypeChangeIntent (userInput : String) : Bool :=
  (["change", "resize", "upgrade", "instance type", "scale", "modify instance"] :
    List String).any fun keyword => strIncludes (lowerStr userInput) keyword

/-- `checkVolumeConversionIntent` from ChatBot.js. -/
def checkVolumeConversionIntent (userInput : String) : Bool :=
  (["volume", "gp2", "gp3", "storage", "convert", "migrate", "cost saving",
    "optimize storage"] : List String).any fun keyword => strIncludes (lowerStr userInput) keyword

/-- The five routing outcomes of `handleSend`. -/
inductive Intent
  | volumeConversion
  | instanceTypeChange
  | cloudwatchConfiguration
  | alarmConfiguration
  | genericChat
  deriving DecidableEq

/-- The intent `handleSend` routes on: the if/else chain of ChatBot.js lines
301-371, applied to the trimmed input. -/
def handleSendIntent (value : String) : Intent :=
  if checkVolumeConversionIntent value then .volumeConversion
  else if checkInstanceTypeChangeIntent value then .instanceTypeChange
  else if checkCloudWatchIntent value then .cloudwatchConfiguration
  else if checkAlarmIntent value then .alarmConfiguration
  else .genericChat

/-- Modelled from the spec (section 4.1) for the refinement comparison: the
four keyword sets in fixed priority order. -/
def specIntentTable : List (Intent × List String) :=
  [(.volumeConversion,
      ["volume", "gp2", "gp3", "storage", "convert", "migrate", "cost saving",
       "optimize storage"]),
   (.instanceTypeChange,
      ["change", "resize", "upgrade", "instance type", "scale", "modify instance"]),
   (.cloudwatchConfiguration,
      ["cloudwatch", "configure", "agent", "install", "setup", "monitor", "start",
       "deploy"]),
   (.alarmConfiguration,
      ["alarm", "alert", "threshold", "notification", "warning", "metric"])]

/-- Modelled from the spec: case-insensitive substring containment of a
keyword in the input. -/
def specKeywordMatch (input keyword : String) : Bool :=
  strIncludes (lowerStr input) (lowerStr keyword)

/-- Modelled from the spec: the first intent in the table whose keyword set
has a match wins; fallback is generic chat. -/
def firstIntentMatch (input : String) : List (Intent × List String) → Intent
  | [] => .genericChat
  | (i, kws) :: rest =>
      if kws.any fun k => specKeywordMatch input k then i else firstIntentMatch input rest

/-- Modelled from the spec (section 4.1): the classifier contract. -/
def specClassifyIntent (input : String) : Intent :=
  firstIntentMatch input specIntentTable

/-- C1: for every input, handleSend's routing over the four check functions
equals the spec's classifier (first matching intent in the fixed priority
order volume-conversion, instance-type-change, cloudwatch-configuration,
alarm-configuration, with case-insensitive substring keyword matching and a
generic-chat fallback); in particular "configure cloudwatch alarm" resolves
to cloudwatch-configuration. -/
theorem C1_intent_priority :
    (∀ value : String, handleSendIntent value = specClassifyIntent value) ∧
    handleSendIntent "configure cloudwatch alarm" = Intent.cloudwatchConfiguration := by
  constructor
  · intro value
    have hv : ((["volume", "gp2", "gp3", "storage", "convert", "migrate", "cost saving",
        "optimize storage"] : List String).any fun k => specKeywordMatch value k)
        = checkVolumeConversionIntent value := rfl
    have hi : ((["change", "resize", "upgrade", "instance type", "scale",
        "modify instance"] : List String).any fun k => specKeywordMatch value k)
        = checkInstanceTypeChangeIntent value := rfl
    have hc : ((["cloudwatch", "configure", "agent", "install", "setup", "monitor",
        "start", "deploy"] : List String).any fun k => specKeywordMatch value k)
        = checkCloudWatchIntent value := rfl
    have ha : ((["alarm", "alert", "threshold", "notification", "warning", "metric"] :
        List String).any fun k => specKeywordMatch value k)
        = checkAlarmIntent value := rfl
    simp only [specClassifyIntent, specIntentTable, firstIntentMatch, hv, hi, hc, ha,
      handleSendIntent]
  · rfl

/-! ## Instances and the table's sort (InstanceDetailsTable.js) -/

/-- An EC2 instance as the backend returns it (field names follow the JSON
keys the source reads). -/
structure Instance where
  InstanceId : String
  InstanceName : Option String
  State : String
  Region : String
  Platform : Option String
  InstanceType : String
  CloudWatchConfigured : Bool
  AlarmsConfigured : Bool
  ActionNeeded : Bool
  deriving DecidableEq

/-- The `status` values `getInstanceStatus` can produce. -/
inductive InstanceStatus
  | not_configured
  | agent_configured
  | alarm_configured
  deriving DecidableEq

/-- The `status`/`actionNeeded` fields of `getInstanceStatus`
(InstanceDetailsTable.js lines 95-121); `text`/`className` are rendering
strings the claims do not touch. -/
structure StatusInfo where
  status : InstanceStatus
  actionNeeded : Bool
  deriving DecidableEq

/-- `getInstanceStatus` from InstanceDetailsTable.js. -/
def getInstanceStatus (i : Instance) : StatusInfo :=
  if i.CloudWatchConfigured && i.AlarmsConfigured then ⟨.alarm_configured, false⟩
  else if i.CloudWatchConfigured then ⟨.agent_configured, false⟩
  else ⟨.not_configured, true⟩

/-- The `priority` map inside the sort comparator (lines 128-132). -/
def priorityOf : InstanceStatus → Nat
  | .not_configured => 0
  | .agent_configured => 1
  | .alarm_configured => 2

/-- The status tier the comparator sorts on. -/
def statusTier (i : Instance) : Nat := priorityOf (getInstanceStatus i).status

/-- The comparator passed to `[...instances].sort` (lines 124-143). -/
def sortCmp (a b : Instance) : Int :=
  if statusTier a ≠ statusTier b then (statusTier a : Int) - statusTier b
  else if a.State ≠ b.State then (if a.State = "running" then -1 else 1)
  else 0

/-- ES2019 `Array.prototype.sort` is a stable sort; it is modelled as stable
insertion: the earlier element `a` moves past a later element `b` only when
the comparator orders `b` strictly before `a`. -/
def stableInsert (cmp : α → α → Int) (a : α) : List α → List α
  | [] => [a]
  | b :: l => if cmp b a < 0 then b :: stableInsert cmp a l else a :: b :: l

/-- Stable sort driven by a JS comparator. -/
def stableSort (cmp : α → α → Int) : List α → List α
  | [] => []
  | a :: l => stableInsert cmp a (stableSort cmp l)

/-- `sortedInstances` from InstanceDetailsTable.js line 124. -/
def sortedInstances (instances : List Instance) : List Instance :=
  stableSort sortCmp instances

theorem mem_stableInsert (cmp : α → α → Int) (a w : α) (L : List α) :
    w ∈ stableInsert cmp a L ↔ w = a ∨ w ∈ L := by
  induction L with
  | nil => simp [stableInsert]
  | cons b l ih =>
    by_cases h : cmp b a < 0
    · simp only [stableInsert, if_pos h, List.mem_cons, ih]
      tauto
    · simp only [stableInsert, if_neg h, List.mem_cons]

theorem filter_stableInsert (cmp : α → α → Int) (p : α → Bool) (a : α) (L : List α)
    (hp : ∀ z, p z = true → p a = true → ¬ cmp z a < 0) :
    (stableInsert cmp a L).filter p
      = if p a then a :: L.filter p else L.filter p := by
  induction L with
  | nil =>
    by_cases hpa : p a = true <;> simp [stableInsert, List.filter, hpa]
  | cons b l ih =>
    by_cases h : cmp b a < 0
    · simp only [stableInsert, if_pos h, List.filter_cons]
      by_cases hpa : p a = true
      · have hpb : ¬ p b = true := fun hb => hp b hb hpa h
        simp only [if_pos hpa] at ih ⊢
        simp [Bool.not_eq_true] at hpb
        simp [hpb, ih, if_pos hpa]
      · simp only [if_neg hpa] at ih ⊢
        by_cases hpb : p b = true <;> simp [hpb, ih]
    · simp only [stableInsert, if_neg h, List.filter_cons]

theorem filter_stableSort (cmp : α → α → Int) (p : α → Bool)
    (hp : ∀ z a, p z = true → p a = true → ¬ cmp z a < 0) (l : List α) :
    (stableSort cmp l).filter p = l.filter p := by
  induction l with
  | nil => rfl
  | cons a t ih =>
    simp only [stableSort]
    rw [filter_stableInsert cmp p a (stableSort cmp t) (fun z hz ha => hp z a hz ha), ih]
    by_cases hpa : p a = true <;> simp [List.filter_cons, hpa]

theorem pairwise_stableInsert (cmp : α → α → Int) (R : α → α → Prop)
    (htrans : ∀ a b c, R a b → R b c → R a c) (a : α) (L : List α)
    (h1 : ∀ z, cmp z a < 0 → R z a) (h2 : ∀ y, ¬ cmp y a < 0 → R a y)
    (hL : L.Pairwise R) : (stableInsert cmp a L).Pairwise R := by
  induction L with
  | nil => simp [stableInsert]
  | cons b l ih =>
    rcases List.pairwise_cons.mp hL with ⟨hb, hl⟩
    by_cases h : cmp b a < 0
    · simp only [stableInsert, if_pos h]
      refine List.pairwise_cons.mpr ⟨?_, ih hl⟩
      intro w hw
      rcases (mem_stableInsert cmp a w l).mp hw with rfl | hw'
      · exact h1 b h
      · exact hb w hw'
    · simp only [stableInsert, if_neg h]
      refine List.pairwise_cons.mpr ⟨?_, hL⟩
      intro w hw
      rcases List.mem_cons.mp hw with rfl | hw'
      · exact h2 w h
      · exact htrans a b w (h2 b h) (hb w hw')

theorem pairwise_stableSort (cmp : α → α → Int) (R : α → α → Prop)
    (htrans : ∀ a b c, R a b → R b c → R a c)
    (h1 : ∀ z a, cmp z a < 0 → R z a) (h2 : ∀ a y, ¬ cmp y a < 0 → R a y)
    (l : List α) : (stableSort cmp l).Pairwise R := by
  induction l with
  | nil => simp [stableSort]
  | cons a t ih =>
    exact pairwise_stableInsert cmp R htrans a (stableSort cmp t)
      (fun z hz => h1 z a hz) (fun y hy => h2 a y hy) ih

theorem sortCmp_lt (z a : Instance) (h : sortCmp z a < 0) :
    statusTier z ≤ statusTier a ∧
      (statusTier z = statusTier a → a.State = "running" → z.State = "running") := by
  unfold sortCmp at h
  by_cases ht : statusTier z ≠ statusTier a
  · rw [if_pos ht] at h
    constructor
    · omega
    · intro heq
      exact absurd heq ht
  · rw [if_neg ht] at h
    push_neg at ht
    by_cases hs : z.State ≠ a.State
    · rw [if_pos hs] at h
      by_cases hr : z.State = "running"
      · exact ⟨le_of_eq ht, fun _ _ => hr⟩
      · rw [if_neg hr] at h
        omega
    · rw [if_neg hs] at h
      omega

theorem sortCmp_not_lt (a y : Instance) (h : ¬ sortCmp y a < 0) :
    statusTier a ≤ statusTier y ∧
      (statusTier a = statusTier y → y.State = "running" → a.State = "running") := by
  unfold sortCmp at h
  by_cases ht : statusTier y ≠ statusTier a
  · rw [if_pos ht] at h
    constructor
    · omega
    · intro heq
      exact absurd heq.symm ht
  · rw [if_neg ht] at h
    push_neg at ht
    by_cases hs : y.State ≠ a.State
    · rw [if_pos hs] at h
      by_cases hr : y.State = "running"
      · rw [if_pos hr] at h
        omega
      · exact ⟨le_of_eq ht.symm, fun _ hy => absurd hy hr⟩
    · push_neg at hs
      exact ⟨le_of_eq ht.symm, fun _ hy => hs ▸ hy⟩

/-- The tier-2 running instance of the spec's sort example. -/
def exTier2 : Instance :=
  { InstanceId := "i-2", InstanceName := some "two", State := "running",
    Region := "us-east-1", Platform := some "linux", InstanceType := "t3.micro",
    CloudWatchConfigured := true, AlarmsConfigured := true, ActionNeeded := false }

/-- The tier-0 stopped instance of the spec's sort example. -/
def exTier0 : Instance :=
  { InstanceId := "i-0", InstanceName := some "zero", State := "stopped",
    Region := "us-east-1", Platform := some "linux", InstanceType := "t3.micro",
    CloudWatchConfigured := false, AlarmsConfigured := false, ActionNeeded := true }

/-- The tier-1 running instance of the spec's sort example. -/
def exTier1 : Instance :=
  { InstanceId := "i-1", InstanceName := some "one", State := "running",
    Region := "us-east-1", Platform := some "linux", InstanceType := "t3.micro",
    CloudWatchConfigured := true, AlarmsConfigured := false, ActionNeeded := false }

/-- C2: the sorted list orders instances by status tier ascending, places
running before non-running within equal tiers, preserves the original order
inside every group of equal tier and equal running-classification (stable
otherwise), and the concrete example with tiers [2,0,1] sorts to tier order
[0,1,2]. -/
theorem C2_instance_sort :
    (∀ l : List Instance, (sortedInstances l).Pairwise fun a b =>
        statusTier a ≤ statusTier b ∧
          (statusTier a = statusTier b → b.State = "running" → a.State = "running")) ∧
    (∀ (l : List Instance) (k : Nat) (r : Bool),
        (sortedInstances l).filter (fun i => statusTier i == k && ((i.State == "running") == r))
          = l.filter fun i => statusTier i == k && ((i.State == "running") == r)) ∧
    (sortedInstances [exTier2, exTier0, exTier1]).map statusTier = [0, 1, 2] := by
  refine ⟨fun l => ?_, fun l k r => ?_, by decide⟩
  · refine pairwise_stableSort sortCmp _ ?_ sortCmp_lt (fun a y => sortCmp_not_lt a y) l
    rintro a b c ⟨hab, hab2⟩ ⟨hbc, hbc2⟩
    refine ⟨le_trans hab hbc, fun hac hc => ?_⟩
    have hb : statusTier a = statusTier b := le_antisymm hab (by omega)
    exact hab2 hb (hbc2 (by omega) hc)
  · refine filter_stableSort sortCmp _ ?_ l
    intro z a hz ha
    simp only [Bool.and_eq_true, beq_iff_eq] at hz ha
    unfold sortCmp
    rw [if_neg (by omega)]
    by_cases hs : z.State ≠ a.State
    · rw [if_pos hs]
      by_cases hr : z.State = "running"
      · exfalso
        apply hs
        have h1 : (z.State == "running") = true := by simp [hr]
        rw [h1] at hz
        have h2 : (a.State == "running") = true := by rw [ha.2, ← hz.2]
        simp at h2
        rw [hr, h2]
      · rw [if_neg hr]
        omega
    · rw [if_neg hs]
      omega

/-! ## Conversation state (ChatBot.js) -/

/-- Message sender (`from` in the source). -/
inductive Sender
  | user
  | bot
  deriving DecidableEq

/-- Discovered AWS account group. -/
structure AccountGroup where
  accountId : String
  cloudwatchAgentStatus : String
  deriving DecidableEq

/-- The `summary` object of a discover-instances response, as read by the
table's refresh handler. -/
structure Summary where
  totalInstances : Nat
  runningInstances : Nat
  configuredInstances : Nat
  alarmsConfiguredInstances : Option Nat
  unconfiguredInstances : Nat
  deriving DecidableEq

/-- The distinct transcript texts the embedded handlers produce; rendering
prose is abstracted to one constructor per message, with the data the text
interpolates as arguments. -/
inductive MsgBody
  | plain (text : String)
  | volumeConversionIntro
  | instanceTypeChangeIntro
  | cloudwatchIntro
  | alarmIntro
  | chatReplyWithSuggestions (reply : String)
  | backendError
  | accountsPrompt
  | apologyAccounts
  | selectedAccount (accountId : String)
  | scanningAccount (accountId : String)
  | instancesFound (total unconfigured configured alarmsConfigured : Nat)
  | apologyInstances
  | refreshRequest
  | refreshSummary (summary : Summary)
  | refreshError
  | configureAlarmsRequest (instanceId : String)
  | alarmSuccess (alarmCount : Nat) (instanceId : String)
  | alarmWarning (successCount totalCount : Nat) (displayName : String)
  | alarmError (displayName : String)
  deriving DecidableEq

/-- A transcript entry: `{from, text, type, data}` in the source. The three
constructors are the three `type` values; the payload of an
`instances-table` message is its `data.instances`/`data.accountId`. -/
inductive Msg
  | text (sender : Sender) (body : MsgBody)
  | accountGroups (body : MsgBody) (data : List AccountGroup)
  | instancesTable (body : MsgBody) (instances : List Instance) (accountId : String)
  deriving DecidableEq

/-- `conversationState` values. -/
inductive ConvState
  | welcome
  | accountSelection
  | instanceManagement
  deriving DecidableEq

/-- The ChatBot component state the claims touch (messages,
conversationState, accountGroups, selectedAccount, instances). -/
structure ChatState where
  messages : List Msg
  conversationState : ConvState
  accountGroups : List AccountGroup
  selectedAccount : Option String
  instances : List Instance
  deriving DecidableEq

/-- Payload of a discover-accounts response (`result.data`). -/
structure AccountsData where
  accountGroups : Option (List AccountGroup)
  deriving DecidableEq

/-- Payload of a discover-instances response (`result.data`). -/
structure InstancesData where
  instances : Option (List Instance)
  summary : Option Summary
  deriving DecidableEq

/-- `fetchAccountGroups` (ChatBot.js lines 109-138) as a state transformer.
`result` is the `discoverAccounts()` round-trip: `.error` is any rejection
(or non-success envelope, which the code turns into a throw) reaching the
catch block. -/
def fetchAccountGroups (s : ChatState) (result : Except String AccountsData) : ChatState :=
  match result with
  | .ok d =>
      let groups := d.accountGroups.getD []
      { s with
        accountGroups := groups
        messages := s.messages ++ [Msg.accountGroups .accountsPrompt groups]
        conversationState := .accountSelection }
  | .error _ =>
      { s with messages := s.messages ++ [Msg.text .bot .apologyAccounts] }

/-- `handleAccountSelect` (ChatBot.js lines 141-207). `setSelectedAccount`
and the two pre-call messages happen before the await on every path. When
`result.data.instances` is undefined, `setInstances([])` has already run and
the template string `result.data.instances.length` throws, so the catch
appends the apology with `instances` already set to `[]`. -/
def handleAccountSelect (s : ChatState) (accountId : String)
    (result : Except String InstancesData) : ChatState :=
  let s1 := { s with
    selectedAccount := some accountId
    messages := s.messages ++ [Msg.text .user (.selectedAccount accountId),
      Msg.text .bot (.scanningAccount accountId)] }
  match result with
  | .ok d =>
      match d.instances with
      | some insts =>
          let unconfigured := (insts.filter fun i => i.ActionNeeded && i.State == "running").length
          let configured :=
            (insts.filter fun i => i.CloudWatchConfigured && i.State == "running").length
          let alarms := (insts.filter fun i => i.AlarmsConfigured && i.State == "running").length
          { s1 with
            instances := insts
            messages := s1.messages ++
              [Msg.instancesTable (.instancesFound insts.length unconfigured configured alarms)
                insts accountId]
            conversationState := .instanceManagement }
      | none =>
          { s1 with instances := [], messages := s1.messages ++ [Msg.text .bot .apologyInstances] }
  | .error _ => { s1 with messages := s1.messages ++ [Msg.text .bot .apologyInstances] }

/-- The per-message update of ChatBot.js lines 63-74: an `instances-table`
message whose `data.accountId` is the selected account gets its payload
replaced by the fresh list; everything else is untouched. -/
def updTableMsg (selected : String) (newInstances : List Instance) : Msg → Msg
  | Msg.instancesTable body insts aid =>
      if aid = selected then Msg.instancesTable body newInstances aid
      else Msg.instancesTable body insts aid
  | m => m

/-- `handleRefreshInstances` of ChatBot.js (lines 51-84): guarded by
`selectedAccount`, replaces the instance list and rewrites matching table
message payloads; on failure (or a success envelope without `instances`) the
error is rethrown and no state changes. -/
def chatHandleRefreshInstances (s : ChatState) (result : Except String InstancesData) :
    ChatState :=
  match s.selectedAccount with
  | none => s
  | some selected =>
      match result with
      | .ok d =>
          match d.instances with
          | some insts =>
              { s with
                instances := insts
                messages := s.messages.map (updTableMsg selected insts) }
          | none => s
      | .error _ => s

/-- `handleRefreshInstances` of InstanceDetailsTable.js (lines 40-92): the
refresh button. It first appends the user-side refresh-request message, then
on success replaces the instance list and appends the summary message (the
500 ms `setTimeout` only delays the append); on failure it appends the error
message. It never touches table message payloads. -/
def tableHandleRefreshInstances (s : ChatState) (accountId : String)
    (result : Except String InstancesData) : ChatState :=
  if accountId = "" then s
  else
    let s1 := { s with messages := s.messages ++ [Msg.text .user .refreshRequest] }
    match result with
    | .ok d =>
        match d.instances with
        | some insts =>
            let s2 := { s1 with instances := insts }
            match d.summary with
            | some sm => { s2 with messages := s2.messages ++ [Msg.text .bot (.refreshSummary sm)] }
            | none => { s2 with messages := s2.messages ++ [Msg.text .bot .refreshError] }
        | none => { s1 with messages := s1.messages ++ [Msg.text .bot .refreshError] }
    | .error _ => { s1 with messages := s1.messages ++ [Msg.text .bot .refreshError] }

/-! ## handleSend (ChatBot.js lines 289-426) -/

/-- Which backend call a `handleSend` invocation issues. -/
inductive ApiCallTag
  | discoverAccountsCall
  | converseCall
  deriving DecidableEq

/-- Payload of a `/api/converse` response (`result.data`); `result.intent`
is read off the `{status, data}` envelope where it is always undefined, so
the backend-intent branches of the source are unreachable and the reply
falls through to the suggestions branch. -/
structure ChatData where
  message : Option String
  deriving DecidableEq

/-- The round-trip results available to one `handleSend` invocation. -/
structure SendEnv where
  accountsResult : Except String AccountsData
  chatResult : Except String ChatData

/-- `handleSend` as a state transformer, also reporting which backend calls
it issued. The empty-after-trim guard comes first; then the user message is
appended and the intent chain dispatches. -/
def handleSend (input : String) (s : ChatState) (env : SendEnv) :
    ChatState × List ApiCallTag :=
  let value := jsTrim input
  if value = "" then (s, [])
  else
    let s1 := { s with messages := s.messages ++ [Msg.text .user (.plain value)] }
    if checkVolumeConversionIntent value then
      (fetchAccountGroups
        { s1 with messages := s1.messages ++ [Msg.text .bot .volumeConversionIntro] }
        env.accountsResult, [.discoverAccountsCall])
    else if checkInstanceTypeChangeIntent value then
      (fetchAccountGroups
        { s1 with messages := s1.messages ++ [Msg.text .bot .instanceTypeChangeIntro] }
        env.accountsResult, [.discoverAccountsCall])
    else if checkCloudWatchIntent value then
      (fetchAccountGroups
        { s1 with messages := s1.messages ++ [Msg.text .bot .cloudwatchIntro] }
        env.accountsResult, [.discoverAccountsCall])
    else if checkAlarmIntent value then
      (fetchAccountGroups
        { s1 with messages := s1.messages ++ [Msg.text .bot .alarmIntro] }
        env.accountsResult, [.discoverAccountsCall])
    else
      match env.chatResult with
      | .ok d =>
          ({ s1 with messages := s1.messages ++
              [Msg.text .bot (.chatReplyWithSuggestions
                (d.message.getD "Sorry, I didn't understand that."))] }, [.converseCall])
      | .error _ =>
          ({ s1 with messages := s1.messages ++ [Msg.text .bot .backendError] }, [.converseCall])

/-! ## configureAlarms (api.js lines 140-191) and its caller -/

/-- `alarmDetails` of a configure-alarms response. -/
structure AlarmDetails where
  successfulAlarms : Nat
  totalAlarms : Nat
  createdAlarms : List String
  deriving DecidableEq

/-- The JSON body of a configure-alarms response (absent keys are `none`;
absent booleans are falsy). -/
structure AlarmRespBody where
  success : Bool
  partialSuccess : Bool
  message : Option String
  error : Option String
  alarmDetails : Option AlarmDetails
  deriving DecidableEq

/-- An HTTP response as fetch resolves it. -/
structure HttpResponse where
  status : Nat
  body : AlarmRespBody
  deriving DecidableEq

/-- fetch `Response.ok`: status in the 200-299 range (true for 207). -/
def respOk (r : HttpResponse) : Bool := 200 ≤ r.status && r.status ≤ 299

/-- The request body `configureAlarms` is called with (the alarmConfig form
values do not influence the client-side control flow). -/
structure AlarmPayload where
  instanceId : Option String
  accountId : Option String
  region : Option String
  platform : Option String
  deriving DecidableEq

/-- `data.platform?.toLowerCase().includes('windows')`. -/
def platformIsWindows (p : Option String) : Bool :=
  match p with
  | none => false
  | some s => strIncludes (lowerStr s) "windows"

/-- The fallback `alarmDetails` object built in the success branch. -/
def defaultAlarmDetails (instanceId : String) (platform : Option String) : AlarmDetails :=
  { successfulAlarms := 4
    totalAlarms := 4
    createdAlarms :=
      [instanceId ++ "-CPU-Utilization", instanceId ++ "-Memory-Utilization",
       instanceId ++ (if platformIsWindows platform then "-Overall-Utilization"
         else "-Disk-Utilization"),
       instanceId ++ "-StatusCheck-System"] }

/-- What `configureAlarms` resolves with. -/
structure AlarmResult where
  success : Bool
  partialSuccess : Bool
  message : Option String
  alarmDetails : Option AlarmDetails
  deriving DecidableEq

/-- `configureAlarms` (api.js lines 140-191): client-side validation, then
the three response scenarios; `.error` is the wrapped throw of the catch
block, `.ok` a resolved value (207 partial success resolves, it does not
throw). -/
def configureAlarms (data : AlarmPayload) (response : HttpResponse) :
    Except String AlarmResult :=
  if !(strTruthy data.instanceId && strTruthy data.accountId && strTruthy data.region) then
    .error "Failed to configure alarms: Missing required fields: instanceId, accountId, or region"
  else if respOk response && response.body.success then
    .ok { success := true
          partialSuccess := false
          message := response.body.message
          alarmDetails := some (response.body.alarmDetails.getD
            (defaultAlarmDetails (data.instanceId.getD "") data.platform)) }
  else if response.status == 207 && response.body.partialSuccess then
    .ok { success := false
          partialSuccess := true
          message := response.body.message
          alarmDetails := response.body.alarmDetails }
  else
    .error ("Failed to configure alarms: " ++ response.body.error.getD "Alarm configuration failed")

/-- The instance-list update of handleConfirmAlarmConfig's success branch
(InstanceDetailsTable.js lines 192-200). -/
def updateAlarmsConfigured (x : String) (l : List Instance) : List Instance :=
  l.map fun inst =>
    if inst.InstanceId = x then { inst with AlarmsConfigured := true } else inst

/-- `alarmCount` of the success branch:
`alarmDetails?.successfulAlarms || alarmDetails?.totalAlarms || 4`
(0 is falsy in JS). -/
def alarmCountOf (d : Option AlarmDetails) : Nat :=
  match d with
  | none => 4
  | some d =>
      if d.successfulAlarms ≠ 0 then d.successfulAlarms
      else if d.totalAlarms ≠ 0 then d.totalAlarms
      else 4

/-- `handleConfirmAlarmConfig` (InstanceDetailsTable.js lines 170-251) as a
state transformer on the chat state; `result` is the `configureAlarms`
round-trip. The success branch also schedules a table refresh 2 s later;
that is a separate later event, not part of this synchronous transition. In
the partial branch a missing `alarmDetails` would throw on field access and
fall to the catch block's error message. -/
def handleConfirmAlarmConfig (s : ChatState) (inst : Instance)
    (result : Except String AlarmResult) : ChatState :=
  let displayName := jsOr inst.InstanceName inst.InstanceId
  let s1 := { s with
    messages := s.messages ++ [Msg.text .user (.configureAlarmsRequest inst.InstanceId)] }
  match result with
  | .ok r =>
      if r.success then
        { s1 with
          instances := updateAlarmsConfigured inst.InstanceId s1.instances
          messages := s1.messages ++
            [Msg.text .bot (.alarmSuccess (alarmCountOf r.alarmDetails) inst.InstanceId)] }
      else if r.partialSuccess then
        match r.alarmDetails with
        | some d =>
            { s1 with messages := s1.messages ++
                [Msg.text .bot (.alarmWarning d.successfulAlarms d.totalAlarms displayName)] }
        | none =>
            { s1 with messages := s1.messages ++ [Msg.text .bot (.alarmError displayName)] }
      else
        { s1 with messages := s1.messages ++ [Msg.text .bot (.alarmError displayName)] }
  | .error _ => { s1 with messages := s1.messages ++ [Msg.text .bot (.alarmError displayName)] }

/-! ## convertVolumes (api.js lines 214-230) -/

/-- The request body `convertVolumes` receives. -/
structure ConvertPayload where
  instanceId : Option String
  accountId : Option String
  region : Option String
  volumeIds : Option (List String)
  newVolumeType : Option String
  deriving DecidableEq

/-- The HTTP request `apiCall` would issue. -/
structure HttpRequest where
  endpoint : String
  payload : ConvertPayload
  deriving DecidableEq

/-- `convertVolumes` (api.js lines 214-230): the client-side validation, then
the POST via apiCall. `.ok` means an HTTP request is issued; `.error` means
the call is rejected before any request. -/
def convertVolumes (data : ConvertPayload) : Except String HttpRequest :=
  if !(strTruthy data.instanceId && strTruthy data.accountId && strTruthy data.region) then
    .error "Failed to convert volumes: Missing required fields: instanceId, accountId, or region"
  else
    .ok { endpoint := "/api/convert-volumes", payload := data }

/-! ## Volume conversion modal (VolumeConversionModal in ConfirmationModal.js) -/

/-- An EBS volume as discovery returns it. -/
structure Volume where
  VolumeId : String
  VolumeType : String
  Size : Nat
  State : String
  AvailabilityZone : String
  Encrypted : Bool
  deriving DecidableEq

/-- An entry of `volumeTypeOptions`. -/
structure VolumeTypeOption where
  value : String
  label : String
  description : String
  benefits : String
  supportsCustom : Bool
  recommended : Bool
  deriving DecidableEq

/-- `volumeTypeOptions` (lines 89-98 of the modal): the list holds only the
gp2 entry, with `supportsCustom: false`. -/
def volumeTypeOptions : List VolumeTypeOption :=
  [{ value := "gp2"
     label := "GP2 (General Purpose SSD - Previous)"
     description := "Previous generation SSD (not recommended for new deployments)"
     benefits := "Legacy compatibility"
     supportsCustom := false
     recommended := false }]

/-- The `{iops, throughput}` object `calculateOptimalSettings` returns. -/
structure OptimalSettings where
  iops : Nat
  throughput : Option Nat
  deriving DecidableEq

/-- `calculateOptimalSettings` (lines 122-137 of the modal): looks the target
type up in `volumeTypeOptions` and returns null unless the option exists and
supports custom settings. -/
def calculateOptimalSettings (volumeSize : Nat) (targetType : String) :
    Option OptimalSettings :=
  match volumeTypeOptions.find? fun opt => opt.value == targetType with
  | none => none
  | some targetOption =>
      if !targetOption.supportsCustom then none
      else if targetType == "gp3" then
        let optimalIops := max 3000 (min (volumeSize * 3) 16000)
        let optimalThroughput := max 125 (min (optimalIops / 4) 1000)
        some { iops := optimalIops, throughput := some optimalThroughput }
      else if targetType == "io1" || targetType == "io2" then
        let multiplier := if targetType == "io2" then 500 else 100
        let optimalIops := max 100 (min (volumeSize * multiplier) 64000)
        some { iops := optimalIops, throughput := none }
      else none

/-- The gp3 branch of `calculateOptimalSettings` in isolation (the formula
the spec documents): IOPS = clamp(size*3, 3000, 16000), throughput =
clamp(floor(IOPS/4), 125, 1000). -/
def gp3OptimalSettings (volumeSize : Nat) : Nat × Nat :=
  let optimalIops := max 3000 (min (volumeSize * 3) 16000)
  (optimalIops, max 125 (min (optimalIops / 4) 1000))

/-- JS `Math.round(sum / count)` for nonnegative integers:
floor(sum/count + 1/2). -/
def jsRoundDiv (sum count : Nat) : Nat := (2 * sum + count) / (2 * count)

/-- The default-prefill computation of `proceedToConfiguration` (lines
351-370 of the modal): average size of the selected volumes, then
`calculateOptimalSettings`; `none` means the custom IOPS/throughput fields
are left untouched. -/
def proceedToConfigurationPrefill (volumes : List Volume) (selectedVolumes : List String)
    (targetVolumeType : String) : Option OptimalSettings :=
  let selectedVolumeObjects := volumes.filter fun v => selectedVolumes.contains v.VolumeId
  if selectedVolumeObjects.length = 0 then none
  else
    let avgSize := jsRoundDiv (selectedVolumeObjects.foldl (fun sum v => sum + v.Size) 0)
      selectedVolumeObjects.length
    calculateOptimalSettings avgSize targetVolumeType

/-! ## Concrete fixtures shared by witnesses and counterexamples -/

/-- The initial widget state (welcome message elided). -/
def emptyChatState : ChatState :=
  { messages := [], conversationState := .welcome, accountGroups := [],
    selectedAccount := none, instances := [] }

/-- A round-trip environment in which every backend call fails. -/
def sendEnv0 : SendEnv := ⟨.error "offline", .error "offline"⟩

/-! ## C3: the gp3 default-settings formula is unreachable -/

/-- C3 (code-bug evidence): with an average selected size of 100 GB and
target gp3, `calculateOptimalSettings` returns none — `volumeTypeOptions`
holds no gp3 entry, so no defaults are prefilled by
`proceedToConfiguration` — while the (unreachable) gp3 branch itself
computes exactly IOPS 3000 and throughput 750. -/
theorem C3_gp3_defaults_unreachable :
    calculateOptimalSettings 100 "gp3" = none ∧
    proceedToConfigurationPrefill
      [{ VolumeId := "vol-1", VolumeType := "gp2", Size := 100, State := "in-use",
         AvailabilityZone := "us-east-1a", Encrypted := false }] ["vol-1"] "gp3" = none ∧
    gp3OptimalSettings 100 = (3000, 750) :=
  ⟨rfl, rfl, rfl⟩

/-! ## C7: discovery failures append an apology and do not advance state -/

/-- C7: when `fetchAccountGroups` or `handleAccountSelect` catches an error,
a generic apology is appended to the transcript and `conversationState` is
unchanged (fetchAccountGroups also leaves accountGroups, selectedAccount and
instances untouched; handleAccountSelect appends its two pre-call messages
before the apology and leaves the instance list untouched). -/
theorem C7_discovery_failure (s : ChatState) (e1 e2 accountId : String) :
    (fetchAccountGroups s (.error e1)).conversationState = s.conversationState ∧
    (fetchAccountGroups s (.error e1)).messages
      = s.messages ++ [Msg.text .bot .apologyAccounts] ∧
    (fetchAccountGroups s (.error e1)).accountGroups = s.accountGroups ∧
    (fetchAccountGroups s (.error e1)).selectedAccount = s.selectedAccount ∧
    (fetchAccountGroups s (.error e1)).instances = s.instances ∧
    (handleAccountSelect s accountId (.error e2)).conversationState = s.conversationState ∧
    (handleAccountSelect s accountId (.error e2)).messages
      = s.messages ++ [Msg.text .user (.selectedAccount accountId),
          Msg.text .bot (.scanningAccount accountId), Msg.text .bot .apologyInstances] ∧
    (handleAccountSelect s accountId (.error e2)).instances = s.instances := by
  refine ⟨rfl, rfl, rfl, rfl, rfl, rfl, ?_, rfl⟩
  simp [handleAccountSelect]

/-! ## C8: convertVolumes client-side validation -/

/-- C8 (amended): `convertVolumes` rejects before issuing any HTTP request
exactly when `instanceId`, `accountId` or `region` is falsy; the `volumeIds`
field is not validated client-side (the request is issued whatever it is). -/
theorem C8_convert_validation :
    (∀ data : ConvertPayload,
        (strTruthy data.instanceId && strTruthy data.accountId && strTruthy data.region)
            = false →
        convertVolumes data = .error
          "Failed to convert volumes: Missing required fields: instanceId, accountId, or region") ∧
    (∀ data : ConvertPayload,
        (strTruthy data.instanceId && strTruthy data.accountId && strTruthy data.region)
            = true →
        convertVolumes data = .ok { endpoint := "/api/convert-volumes", payload := data }) := by
  constructor <;> intro data h <;> simp [convertVolumes, h]

/-- A convert-volumes payload with `accountId` and `region` present but
`volumeIds` missing. -/
def c8Payload : ConvertPayload :=
  { instanceId := some "i-0abc", accountId := some "111122223333",
    region := some "us-east-1", volumeIds := none, newVolumeType := some "gp3" }

/-- A convert-volumes payload missing `accountId`. -/
def c8MissingPayload : ConvertPayload :=
  { instanceId := some "i-0abc", accountId := none, region := some "us-east-1",
    volumeIds := some ["vol-1"], newVolumeType := some "gp3" }

/-- C8 witness: the missing-accountId payload is rejected client-side; the
payload with no `volumeIds` is not. -/
theorem C8_convert_validation_witness :
    convertVolumes c8MissingPayload = .error
      "Failed to convert volumes: Missing required fields: instanceId, accountId, or region" ∧
    convertVolumes c8Payload = .ok { endpoint := "/api/convert-volumes", payload := c8Payload } :=
  ⟨C8_convert_validation.1 c8MissingPayload rfl, C8_convert_validation.2 c8Payload rfl⟩

/-- C8 counterexample to the claim as stated: a payload whose `volumeIds` is
missing is not rejected — the HTTP request is issued. -/
theorem C8_counterexample :
    c8Payload.volumeIds = none ∧
    convertVolumes c8Payload = .ok { endpoint := "/api/convert-volumes", payload := c8Payload } :=
  ⟨rfl, rfl⟩

/-! ## C9: empty or whitespace-only input is a no-op -/

theorem jsTrim_eq_empty (input : String) (h : ∀ c ∈ input.data, isJsSpace c = true) :
    jsTrim input = "" := by
  have h1 : input.data.dropWhile isJsSpace = [] :=
    List.dropWhile_eq_nil_iff.mpr fun c hc => h c hc
  unfold jsTrim
  rw [h1]
  rfl

/-- C9: for every input that is empty or whitespace-only, `handleSend` is a
no-op — no message appended, no backend call issued, no state change; the
guard fires before any intent classification. -/
theorem C9_whitespace_noop (input : String) (s : ChatState) (env : SendEnv)
    (h : ∀ c ∈ input.data, isJsSpace c = true) :
    handleSend input s env = (s, []) := by
  unfold handleSend
  rw [jsTrim_eq_empty input h]
  simp

/-- C9 witness at the concrete input " \t ". -/
theorem C9_whitespace_noop_witness :
    handleSend " \t " emptyChatState sendEnv0 = (emptyChatState, []) :=
  C9_whitespace_noop " \t " emptyChatState sendEnv0 (by decide)

/-! ## C5: HTTP 207 partial success does not throw -/

/-- C5: on a 207 partial-success response (body has `partialSuccess: true`,
`success` false, alarm details present) with a valid payload,
`configureAlarms` resolves (does not throw) with the distinct partial
result; `handleConfirmAlarmConfig` on that result appends the warning
message and leaves the instance list — in particular every
`AlarmsConfigured` field — unchanged. -/
theorem C5_partial_alarm (data : AlarmPayload) (resp : HttpResponse) (s : ChatState)
    (inst : Instance) (d : AlarmDetails)
    (hvalid : (strTruthy data.instanceId && strTruthy data.accountId &&
      strTruthy data.region) = true)
    (h207 : resp.status = 207) (hsucc : resp.body.success = false)
    (hpart : resp.body.partialSuccess = true)
    (hdet : resp.body.alarmDetails = some d) :
    configureAlarms data resp = .ok
      { success := false, partialSuccess := true, message := resp.body.message,
        alarmDetails := some d } ∧
    (handleConfirmAlarmConfig s inst (.ok
      { success := false, partialSuccess := true, message := resp.body.message,
        alarmDetails := some d })).instances = s.instances ∧
    (handleConfirmAlarmConfig s inst (.ok
      { success := false, partialSuccess := true, message := resp.body.message,
        alarmDetails := some d })).messages
      = s.messages ++ [Msg.text .user (.configureAlarmsRequest inst.InstanceId),
          Msg.text .bot (.alarmWarning d.successfulAlarms d.totalAlarms
            (jsOr inst.InstanceName inst.InstanceId))] ∧
    (handleConfirmAlarmConfig s inst (.ok
      { success := false, partialSuccess := true, message := resp.body.message,
        alarmDetails := some d })).conversationState = s.conversationState := by
  refine ⟨?_, ?_, ?_, ?_⟩
  · simp [configureAlarms, hvalid, h207, hsucc, hpart, hdet, respOk]
  · simp [handleConfirmAlarmConfig]
  · simp [handleConfirmAlarmConfig]
  · simp [handleConfirmAlarmConfig]

/-- The instance used by the C5 witness. -/
def alarmInst : Instance :=
  { InstanceId := "i-0abc", InstanceName := some "app-server", State := "running",
    Region := "us-east-1", Platform := some "linux", InstanceType := "t3.micro",
    CloudWatchConfigured := true, AlarmsConfigured := false, ActionNeeded := false }

/-- The chat state used by the C5 witness. -/
def alarmState : ChatState :=
  { messages := [], conversationState := .instanceManagement, accountGroups := [],
    selectedAccount := some "111122223333", instances := [alarmInst] }

/-- A valid configure-alarms payload. -/
def alarmPayload0 : AlarmPayload :=
  { instanceId := some "i-0abc", accountId := some "111122223333",
    region := some "us-east-1", platform := some "linux" }

/-- 2 of 4 alarms created. -/
def alarmDetails24 : AlarmDetails :=
  { successfulAlarms := 2, totalAlarms := 4,
    createdAlarms := ["i-0abc-CPU-Utilization", "i-0abc-Memory-Utilization"] }

/-- A concrete HTTP 207 partial-success response. -/
def resp207 : HttpResponse :=
  { status := 207,
    body := { success := false, partialSuccess := true, message := some "partial",
              error := none, alarmDetails := some alarmDetails24 } }

/-- C5 witness: the 2-of-4 response at concrete inputs. -/
theorem C5_partial_alarm_witness :
    configureAlarms alarmPayload0 resp207 = .ok
      { success := false, partialSuccess := true, message := some "partial",
        alarmDetails := some alarmDetails24 } :=
  (C5_partial_alarm alarmPayload0 resp207 alarmState alarmInst alarmDetails24
    rfl rfl rfl rfl rfl).1

/-! ## C10: the alarm-success instance update only touches the matching entry -/

/-- C10: the success-branch update maps the list entrywise; every entry
whose `InstanceId` equals the configured instance gets `AlarmsConfigured :=
true` with all other fields unchanged, and every other entry is unchanged in
all fields; and `handleConfirmAlarmConfig` applies exactly this update on a
success result. -/
theorem C10_alarm_update_frame :
    (∀ (x : String) (l : List Instance),
      List.Forall₂ (fun a b =>
        b.InstanceId = a.InstanceId ∧ b.InstanceName = a.InstanceName ∧
        b.State = a.State ∧ b.Region = a.Region ∧ b.Platform = a.Platform ∧
        b.InstanceType = a.InstanceType ∧
        b.CloudWatchConfigured = a.CloudWatchConfigured ∧
        b.ActionNeeded = a.ActionNeeded ∧
        (a.InstanceId = x → b.AlarmsConfigured = true) ∧
        (a.InstanceId ≠ x → b.AlarmsConfigured = a.AlarmsConfigured))
        l (updateAlarmsConfigured x l)) ∧
    (∀ (s : ChatState) (inst : Instance) (r : AlarmResult), r.success = true →
      (handleConfirmAlarmConfig s inst (.ok r)).instances
        = updateAlarmsConfigured inst.InstanceId s.instances) := by
  constructor
  · intro x l
    induction l with
    | nil => exact List.Forall₂.nil
    | cons a t ih =>
      rw [show updateAlarmsConfigured x (a :: t)
        = (if a.InstanceId = x then { a with AlarmsConfigured := true } else a)
          :: updateAlarmsConfigured x t from rfl]
      refine List.Forall₂.cons ?_ ih
      by_cases hx : a.InstanceId = x
      · simp [hx]
      · simp [hx]
  · intro s inst r h
    simp [handleConfirmAlarmConfig, h]

/-! ## C4 and C6: refresh behaviour -/

theorem updTableMsg_idem (sel : String) (insts : List Instance) (m : Msg) :
    updTableMsg sel insts (updTableMsg sel insts m) = updTableMsg sel insts m := by
  cases m with
  | text sender body => rfl
  | accountGroups body d => rfl
  | instancesTable body i aid =>
      by_cases h : aid = sel <;> simp [updTableMsg, h]

theorem map_updTableMsg_idem (sel : String) (insts : List Instance) :
    ∀ l : List Msg,
      (l.map (updTableMsg sel insts)).map (updTableMsg sel insts)
        = l.map (updTableMsg sel insts)
  | [] => rfl
  | m :: t => by
      simp only [List.map_cons, updTableMsg_idem, map_updTableMsg_idem sel insts t]

/-- Refresh-related transcript entries: the user-side refresh request, the
bot-side refresh summary, and the bot-side refresh failure message. -/
def countRefreshMessages (msgs : List Msg) : Nat :=
  (msgs.filter fun m =>
    match m with
    | Msg.text _ .refreshRequest => true
    | Msg.text _ (.refreshSummary _) => true
    | Msg.text _ .refreshError => true
    | _ => false).length

/-- C4 (amended): with fixed backend data, refreshing twice yields the same
instance list as refreshing once (both refresh implementations), and the
ChatBot-level refresh is fully idempotent on the whole state; but the
table's refresh button appends its refresh-request and summary messages
again on the second invocation. -/
theorem C4_refresh_idempotence (s : ChatState) (acc : String) (d : InstancesData)
    (insts : List Instance) (sm : Summary) (hacc : ¬ acc = "")
    (hi : d.instances = some insts) (hs : d.summary = some sm) :
    (tableHandleRefreshInstances (tableHandleRefreshInstances s acc (.ok d)) acc
        (.ok d)).instances
      = (tableHandleRefreshInstances s acc (.ok d)).instances ∧
    chatHandleRefreshInstances (chatHandleRefreshInstances s (.ok d)) (.ok d)
      = chatHandleRefreshInstances s (.ok d) ∧
    (tableHandleRefreshInstances (tableHandleRefreshInstances s acc (.ok d)) acc
        (.ok d)).messages
      = (tableHandleRefreshInstances s acc (.ok d)).messages
        ++ [Msg.text .user .refreshRequest, Msg.text .bot (.refreshSummary sm)] := by
  refine ⟨?_, ?_, ?_⟩
  · simp [tableHandleRefreshInstances, hacc, hi, hs]
  · cases hsel : s.selectedAccount with
    | none => simp [chatHandleRefreshInstances, hsel]
    | some sel =>
        simp [chatHandleRefreshInstances, hsel, hi, map_updTableMsg_idem]
        intro a _
        exact updTableMsg_idem sel insts a
  · simp [tableHandleRefreshInstances, hacc, hi, hs]

/-- The stale instance the refresh fixtures start from. -/
def refreshInstOld : Instance :=
  { InstanceId := "i-0abc", InstanceName := some "app-server", State := "running",
    Region := "us-east-1", Platform := some "linux", InstanceType := "t3.micro",
    CloudWatchConfigured := false, AlarmsConfigured := false, ActionNeeded := true }

/-- The freshly fetched version of the same instance. -/
def refreshInstNew : Instance :=
  { InstanceId := "i-0abc", InstanceName := some "app-server", State := "running",
    Region := "us-east-1", Platform := some "linux", InstanceType := "t3.micro",
    CloudWatchConfigured := true, AlarmsConfigured := false, ActionNeeded := false }

/-- The summary of the fresh discover-instances response. -/
def refreshSummary0 : Summary :=
  { totalInstances := 1, runningInstances := 1, configuredInstances := 1,
    alarmsConfiguredInstances := some 0, unconfiguredInstances := 0 }

/-- The fresh discover-instances response. -/
def refreshData : InstancesData :=
  { instances := some [refreshInstNew], summary := some refreshSummary0 }

/-- A state holding the stale list and the stale table message for the
selected account. -/
def refreshState : ChatState :=
  { messages := [Msg.instancesTable (.instancesFound 1 1 0 0) [refreshInstOld]
      "111122223333"],
    conversationState := .instanceManagement, accountGroups := [],
    selectedAccount := some "111122223333", instances := [refreshInstOld] }

/-- C4 witness: the double table refresh at concrete inputs keeps the
instance list. -/
theorem C4_refresh_idempotence_witness :
    (tableHandleRefreshInstances (tableHandleRefreshInstances refreshState "111122223333"
        (.ok refreshData)) "111122223333" (.ok refreshData)).instances
      = (tableHandleRefreshInstances refreshState "111122223333"
          (.ok refreshData)).instances :=
  (C4_refresh_idempotence refreshState "111122223333" refreshData [refreshInstNew]
    refreshSummary0 (by decide) rfl rfl).1

/-- C4 counterexample to the claim as stated: after two invocations of the
table's refresh the transcript holds four refresh-related messages, after
one invocation two — the second refresh duplicates them. -/
theorem C4_counterexample :
    countRefreshMessages (tableHandleRefreshInstances (tableHandleRefreshInstances
        refreshState "111122223333" (.ok refreshData)) "111122223333"
        (.ok refreshData)).messages = 4 ∧
    countRefreshMessages (tableHandleRefreshInstances refreshState "111122223333"
        (.ok refreshData)).messages = 2 :=
  ⟨rfl, rfl⟩

/-- C6 (amended): after a successful ChatBot-level refresh the displayed
list and every table-message payload for the selected account equal the
fresh list; the table's refresh button updates only the displayed list and
leaves every embedded table payload exactly as it was. -/
theorem C6_refresh_consistency (s : ChatState) (acc : String) (d : InstancesData)
    (insts : List Instance) (sm : Summary) (hsel : s.selectedAccount = some acc)
    (hacc : ¬ acc = "") (hi : d.instances = some insts) (hs : d.summary = some sm) :
    (chatHandleRefreshInstances s (.ok d)).instances = insts ∧
    (∀ (body : MsgBody) (payload : List Instance) (aid : String),
        Msg.instancesTable body payload aid ∈ (chatHandleRefreshInstances s (.ok d)).messages →
        aid = acc → payload = insts) ∧
    (tableHandleRefreshInstances s acc (.ok d)).instances = insts ∧
    (∀ (body : MsgBody) (payload : List Instance) (aid : String),
        Msg.instancesTable body payload aid
            ∈ (tableHandleRefreshInstances s acc (.ok d)).messages
          ↔ Msg.instancesTable body payload aid ∈ s.messages) := by
  refine ⟨?_, ?_, ?_, ?_⟩
  · simp [chatHandleRefreshInstances, hsel, hi]
  · intro body payload aid hmem haid
    simp only [chatHandleRefreshInstances, hsel, hi] at hmem
    rcases List.mem_map.mp hmem with ⟨m, _, hupd⟩
    cases m with
    | text sender b => exact absurd hupd (by simp [updTableMsg])
    | accountGroups b dat => exact absurd hupd (by simp [updTableMsg])
    | instancesTable b i a =>
        by_cases h : a = acc
        · rw [show updTableMsg acc insts (Msg.instancesTable b i a)
            = Msg.instancesTable b insts a from by simp [updTableMsg, h]] at hupd
          cases hupd
          rfl
        · rw [show updTableMsg acc insts (Msg.instancesTable b i a)
            = Msg.instancesTable b i a from by simp [updTableMsg, h]] at hupd
          cases hupd
          exact absurd haid h
  · simp [tableHandleRefreshInstances, hacc, hi, hs]
  · intro body payload aid
    simp [tableHandleRefreshInstances, hacc, hi, hs]

/-- C6 witness: the ChatBot refresh at concrete inputs updates the displayed
list to the fresh one. -/
theorem C6_refresh_consistency_witness :
    (chatHandleRefreshInstances refreshState (.ok refreshData)).instances
      = [refreshInstNew] :=
  (C6_refresh_consistency refreshState "111122223333" refreshData [refreshInstNew]
    refreshSummary0 rfl (by decide) rfl rfl).1

/-- C6 counterexample to the claim as stated: after a successful table-button
refresh the displayed list is the fresh one while the table message for the
selected account still embeds the stale payload. -/
theorem C6_counterexample :
    (tableHandleRefreshInstances refreshState "111122223333" (.ok refreshData)).instances
      = [refreshInstNew] ∧
    Msg.instancesTable (.instancesFound 1 1 0 0) [refreshInstOld] "111122223333"
      ∈ (tableHandleRefreshInstances refreshState "111122223333" (.ok refreshData)).messages ∧
    refreshInstOld ≠ refreshInstNew := by
  refine ⟨rfl, by decide, by decide⟩
